import Mathlib

/-!
# Verification of the heliostat field-map renderer (MirrorFieldPage)

Shallow embedding, over exact rational arithmetic, of the coordinate
transform, hit-testing and viewport-controller logic of `src/App.jsx`
(`MirrorFieldPage`), together with the data-load path
(`loadMirrorData` / `getMirrorFieldData`).

Conventions of the embedding:
* JavaScript numbers are modelled as `ℚ` (the code performs only
  field operations, `min`/`max`, and one `Math.sqrt` used solely inside
  order comparisons of nonnegative quantities; those comparisons are
  embedded as comparisons of squares, which is equivalent because
  `sqrt` is strictly monotone on nonnegatives).
* React state is explicit: each event handler is a function from the
  component state (and the event payload) to the new state.
* `Infinity` (the initial `minDist`) is modelled as `Option ℚ` with
  `none` standing for infinity.
-/

namespace MirrorField

/-- A mirror record as served by `/api/mirror-field/data` and consumed by
`MirrorFieldPage`: `{id, x, y, z, c}` with `x, y` in meters, `z` the zone
letter and `c` the cleanliness percentage. -/
structure Mirror where
  id : String
  x : ℚ
  y : ℚ
  z : String
  c : ℚ
  deriving DecidableEq, Repr

/-- The fixed world bounds `BOUNDS = { xMin: -914, xMax: 907, yMin: -518, yMax: 1270 }`. -/
structure Bounds where
  xMin : ℚ
  xMax : ℚ
  yMin : ℚ
  yMax : ℚ
  deriving DecidableEq, Repr

/-- `const BOUNDS = { xMin: -914, xMax: 907, yMin: -518, yMax: 1270 };` -/
def BOUNDS : Bounds := { xMin := -914, xMax := 907, yMin := -518, yMax := 1270 }

/-- The viewport parameters read by the coordinate transforms:
`canvasSize` (`width`, `height`), `zoom` and `offset`. -/
structure Cfg where
  width : ℚ
  height : ℚ
  zoom : ℚ
  offsetX : ℚ
  offsetY : ℚ
  deriving DecidableEq, Repr

/-- The shared scale factor computed identically in `dataToCanvas` and
`canvasToData`:
`Math.min(canvasSize.width / (BOUNDS.xMax - BOUNDS.xMin), canvasSize.height / (BOUNDS.yMax - BOUNDS.yMin)) * 0.9`. -/
def scaleFactor (cfg : Cfg) : ℚ :=
  min (cfg.width / (BOUNDS.xMax - BOUNDS.xMin))
      (cfg.height / (BOUNDS.yMax - BOUNDS.yMin)) * (9 / 10)

/-- `dataToCanvas(x, y)`: world meters to canvas pixels.
`{ x: canvasSize.width / 2 + (x * scale * zoom) + offset.x,
   y: canvasSize.height / 2 - (y * scale * zoom) + offset.y }`. -/
def dataToCanvas (cfg : Cfg) (x y : ℚ) : ℚ × ℚ :=
  let scale := scaleFactor cfg
  (cfg.width / 2 + x * scale * cfg.zoom + cfg.offsetX,
   cfg.height / 2 - y * scale * cfg.zoom + cfg.offsetY)

/-- `canvasToData(cx, cy)`: canvas pixels to world meters.
`{ x: (cx - canvasSize.width / 2 - offset.x) / (scale * zoom),
   y: -(cy - canvasSize.height / 2 - offset.y) / (scale * zoom) }`. -/
def canvasToData (cfg : Cfg) (cx cy : ℚ) : ℚ × ℚ :=
  let scale := scaleFactor cfg
  ((cx - cfg.width / 2 - cfg.offsetX) / (scale * cfg.zoom),
   -(cy - cfg.height / 2 - cfg.offsetY) / (scale * cfg.zoom))

/-- The scale factor is positive on a canvas of positive size. -/
lemma scaleFactor_pos (cfg : Cfg) (hw : 0 < cfg.width) (hh : 0 < cfg.height) :
    0 < scaleFactor cfg := by
  have hx : (0 : ℚ) < cfg.width / (BOUNDS.xMax - BOUNDS.xMin) := by
    apply div_pos hw; norm_num [BOUNDS]
  have hy : (0 : ℚ) < cfg.height / (BOUNDS.yMax - BOUNDS.yMin) := by
    apply div_pos hh; norm_num [BOUNDS]
  have : (0 : ℚ) < min (cfg.width / (BOUNDS.xMax - BOUNDS.xMin))
      (cfg.height / (BOUNDS.yMax - BOUNDS.yMin)) := lt_min hx hy
  unfold scaleFactor
  positivity

end MirrorField

namespace MirrorField

/-- C1: For every world point within `BOUNDS` and every viewport with a
positive canvas and `zoom ∈ [0.2, 10]`, `canvasToData` is an exact inverse
of `dataToCanvas` (exact equality in rational arithmetic, hence within any
floating-point tolerance): `canvasToData (dataToCanvas p) = p`. -/
theorem canvasToData_dataToCanvas (cfg : Cfg) (x y : ℚ)
    (hw : 0 < cfg.width) (hh : 0 < cfg.height)
    (hz₁ : 1/5 ≤ cfg.zoom) (hz₂ : cfg.zoom ≤ 10)
    (hx₁ : BOUNDS.xMin ≤ x) (hx₂ : x ≤ BOUNDS.xMax)
    (hy₁ : BOUNDS.yMin ≤ y) (hy₂ : y ≤ BOUNDS.yMax) :
    canvasToData cfg (dataToCanvas cfg x y).1 (dataToCanvas cfg x y).2 = (x, y) := by
  have hs : scaleFactor cfg ≠ 0 := ne_of_gt (scaleFactor_pos cfg hw hh)
  have hz : cfg.zoom ≠ 0 := by linarith [hz₁]
  simp only [canvasToData, dataToCanvas]
  refine Prod.ext ?_ ?_ <;> · show _ = _; field_simp; ring

/-- Witness for C1 at a concrete viewport and world point. -/
theorem canvasToData_dataToCanvas_witness :
    canvasToData { width := 800, height := 600, zoom := 1, offsetX := 10, offsetY := -20 }
      (dataToCanvas { width := 800, height := 600, zoom := 1, offsetX := 10, offsetY := -20 } 100 50).1
      (dataToCanvas { width := 800, height := 600, zoom := 1, offsetX := 10, offsetY := -20 } 100 50).2
      = (100, 50) :=
  canvasToData_dataToCanvas _ 100 50 (by norm_num) (by norm_num) (by norm_num)
    (by norm_num) (by norm_num [BOUNDS]) (by norm_num [BOUNDS])
    (by norm_num [BOUNDS]) (by norm_num [BOUNDS])

/-- `handleWheel`'s zoom update:
`const delta = e.deltaY > 0 ? 0.9 : 1.1;`
`const newZoom = Math.max(0.2, Math.min(10, zoom * delta));`. -/
def wheelNewZoom (zoom deltaY : ℚ) : ℚ :=
  let delta : ℚ := if 0 < deltaY then 9/10 else 11/10
  max (1/5) (min 10 (zoom * delta))

/-- `handleWheel`: given the cursor position `(mouseX, mouseY)` in canvas
coordinates and the wheel `deltaY`, updates zoom and offset:
`setOffset(prev => ({ x: prev.x - (mouseX - centerX) * (newZoom / zoom - 1),
                      y: prev.y - (mouseY - centerY) * (newZoom / zoom - 1) }));
 setZoom(newZoom);` with `centerX = canvasSize.width / 2`,
`centerY = canvasSize.height / 2`. -/
def handleWheel (cfg : Cfg) (mouseX mouseY deltaY : ℚ) : Cfg :=
  let newZoom := wheelNewZoom cfg.zoom deltaY
  let centerX := cfg.width / 2
  let centerY := cfg.height / 2
  { cfg with
    zoom := newZoom
    offsetX := cfg.offsetX - (mouseX - centerX) * (newZoom / cfg.zoom - 1)
    offsetY := cfg.offsetY - (mouseY - centerY) * (newZoom / cfg.zoom - 1) }

/-- C2 counterexample: with canvas 800×600, `zoom = 1`, `offset = (100, 0)`
and the cursor at the canvas center `(400, 300)`, a single zoom-in wheel
event (`deltaY = -1`, so `newZoom = 1.1`, inside `[0.2, 10]`) moves the
world point that was under the cursor to screen `x = 390`: it shifts by
10 pixels, far beyond the claimed 1-pixel tolerance. -/
theorem handleWheel_not_zoom_to_cursor :
    (dataToCanvas
        (handleWheel { width := 800, height := 600, zoom := 1, offsetX := 100, offsetY := 0 } 400 300 (-1))
        (canvasToData { width := 800, height := 600, zoom := 1, offsetX := 100, offsetY := 0 } 400 300).1
        (canvasToData { width := 800, height := 600, zoom := 1, offsetX := 100, offsetY := 0 } 400 300).2).1
      = 390 ∧ ((400 : ℚ) - 390) > 1 := by
  constructor
  · norm_num [canvasToData, dataToCanvas, handleWheel, wheelNewZoom, scaleFactor, BOUNDS]
  · norm_num

/-- `handleWheel` does not change the canvas size, so it leaves the scale
factor unchanged. -/
lemma scaleFactor_handleWheel (cfg : Cfg) (mouseX mouseY deltaY : ℚ) :
    scaleFactor (handleWheel cfg mouseX mouseY deltaY) = scaleFactor cfg := rfl

/-- C2 amended: after `handleWheel`, the world point that was under the
cursor maps to screen position `cursor + offset * (1 - newZoom/zoom)` — so
it stays exactly under the cursor when the pan offset is `(0,0)` (or when
the zoom is unchanged), but for a nonzero offset it drifts by
`|offset| * |1 - newZoom/zoom|` pixels, which can exceed 1. -/
theorem handleWheel_cursor_displacement (cfg : Cfg) (mouseX mouseY deltaY : ℚ)
    (hw : 0 < cfg.width) (hh : 0 < cfg.height)
    (hz₁ : 1/5 ≤ cfg.zoom) (hz₂ : cfg.zoom ≤ 10) :
    dataToCanvas (handleWheel cfg mouseX mouseY deltaY)
        (canvasToData cfg mouseX mouseY).1 (canvasToData cfg mouseX mouseY).2 =
      (mouseX + cfg.offsetX * (1 - wheelNewZoom cfg.zoom deltaY / cfg.zoom),
       mouseY + cfg.offsetY * (1 - wheelNewZoom cfg.zoom deltaY / cfg.zoom)) := by
  have hs : scaleFactor cfg ≠ 0 := ne_of_gt (scaleFactor_pos cfg hw hh)
  have hz : cfg.zoom ≠ 0 := by intro h; rw [h] at hz₁; norm_num at hz₁
  simp only [dataToCanvas, scaleFactor_handleWheel]
  simp only [handleWheel, canvasToData]
  refine Prod.ext ?_ ?_ <;> · show _ = _; field_simp; ring

/-- C2 amended, witness: at canvas 800×600, `zoom = 1`, `offset = (0, 0)`,
cursor `(500, 200)`, zoom-in (`newZoom = 1.1`): the under-cursor world
point maps back to exactly `(500, 200)` (offset-zero case, displacement 0). -/
theorem handleWheel_cursor_displacement_witness :
    (0 : ℚ) < 800 ∧
    dataToCanvas
        (handleWheel { width := 800, height := 600, zoom := 1, offsetX := 0, offsetY := 0 } 500 200 (-1))
        (canvasToData { width := 800, height := 600, zoom := 1, offsetX := 0, offsetY := 0 } 500 200).1
        (canvasToData { width := 800, height := 600, zoom := 1, offsetX := 0, offsetY := 0 } 500 200).2
      = (500, 200) := by
  refine ⟨by norm_num, ?_⟩
  have h := handleWheel_cursor_displacement
    { width := 800, height := 600, zoom := 1, offsetX := 0, offsetY := 0 } 500 200 (-1)
    (by norm_num) (by norm_num) (by norm_num) (by norm_num)
  rw [h]
  norm_num [wheelNewZoom]

/-- The toolbar zoom-out button: `setZoom(z => Math.max(0.2, z * 0.8))`. -/
def zoomOutButton (z : ℚ) : ℚ := max (1/5) (z * (4/5))

/-- The toolbar zoom-in button: `setZoom(z => Math.min(10, z * 1.25))`. -/
def zoomInButton (z : ℚ) : ℚ := min 10 (z * (5/4))

/-- `resetView` sets `zoom` to 1 (`setZoom(1)`). -/
def resetViewZoom : ℚ := 1

/-- The operations of `MirrorFieldPage` that write `zoom`. -/
inductive ZoomOp where
  | wheel (deltaY : ℚ)
  | zoomInBtn
  | zoomOutBtn
  | reset
  deriving DecidableEq, Repr

/-- The new zoom value produced by each zoom-writing operation. -/
def applyZoomOp (z : ℚ) : ZoomOp → ℚ
  | .wheel deltaY => wheelNewZoom z deltaY
  | .zoomInBtn => zoomInButton z
  | .zoomOutBtn => zoomOutButton z
  | .reset => resetViewZoom

/-- Each single zoom-writing operation maps `[0.2, 10]` into itself. -/
lemma applyZoomOp_mem (z : ℚ) (op : ZoomOp) (h₁ : 1/5 ≤ z) (h₂ : z ≤ 10) :
    1/5 ≤ applyZoomOp z op ∧ applyZoomOp z op ≤ 10 := by
  cases op with
  | wheel deltaY =>
      unfold applyZoomOp wheelNewZoom
      constructor
      · exact le_max_left _ _
      · simp only [max_le_iff, min_le_iff]
        exact ⟨by norm_num, Or.inl le_rfl⟩
  | zoomInBtn =>
      unfold applyZoomOp zoomInButton
      refine ⟨le_min (by norm_num) (by nlinarith), min_le_left _ _⟩
  | zoomOutBtn =>
      unfold applyZoomOp zoomOutButton
      refine ⟨le_max_left _ _, max_le (by norm_num) (by nlinarith)⟩
  | reset =>
      unfold applyZoomOp resetViewZoom
      norm_num

/-- C3: starting from the initial `useState(1)`, every sequence of
zoom-writing operations (wheel events, the toolbar zoom-in and zoom-out
buttons, and `resetView`) leaves `zoom` inside `[0.2, 10]`. -/
theorem zoom_always_in_range (ops : List ZoomOp) :
    1/5 ≤ List.foldl applyZoomOp 1 ops ∧ List.foldl applyZoomOp 1 ops ≤ 10 := by
  have key : ∀ (l : List ZoomOp) (z : ℚ), 1/5 ≤ z → z ≤ 10 →
      1/5 ≤ List.foldl applyZoomOp z l ∧ List.foldl applyZoomOp z l ≤ 10 := by
    intro l
    induction l with
    | nil => intro z h₁ h₂; exact ⟨h₁, h₂⟩
    | cons op rest ih =>
        intro z h₁ h₂
        obtain ⟨g₁, g₂⟩ := applyZoomOp_mem z op h₁ h₂
        exact ih _ g₁ g₂
  exact key ops 1 (by norm_num) (by norm_num)

/-- The squared world-space distance
`Math.pow(m.x - dataPos.x, 2) + Math.pow(m.y - dataPos.y, 2)` used inside
`findNearestMirror` (the source takes `Math.sqrt` of this and compares the
roots; since the square root is strictly monotone on nonnegatives, this
embedding compares the squares instead, which decides the same
comparisons exactly). -/
def mirrorDistSq (dataPos : ℚ × ℚ) (m : Mirror) : ℚ :=
  (m.x - dataPos.1) ^ 2 + (m.y - dataPos.2) ^ 2

/-- The scanning loop of `findNearestMirror`:
`let nearest = null, minDist = Infinity;
 for (const m of filteredMirrors) {
   const dist = ...;
   if (dist < minDist && dist < threshold) { minDist = dist; nearest = m; } }`
with `minDist = Infinity` modelled as `none` (every finite distance
satisfies `dist < Infinity`, so in that case only `dist < threshold` is
tested). Distances are carried squared, see `mirrorDistSq`. -/
def findLoop (dSq : Mirror → ℚ) (thSq : ℚ) :
    List Mirror → Option Mirror → Option ℚ → Option Mirror × Option ℚ
  | [], nearest, minDist => (nearest, minDist)
  | m :: rest, nearest, minDist =>
    match minDist with
    | none =>
        if dSq m < thSq then findLoop dSq thSq rest (some m) (some (dSq m))
        else findLoop dSq thSq rest nearest none
    | some md =>
        if dSq m < md ∧ dSq m < thSq then findLoop dSq thSq rest (some m) (some (dSq m))
        else findLoop dSq thSq rest nearest (some md)

/-- `findNearestMirror(cx, cy)`: converts the cursor to world space, sets
`threshold = 15 / zoom`, scans the given mirror list and returns the
nearest mirror strictly within the threshold (`null`/`none` otherwise). -/
def findNearestMirror (cfg : Cfg) (mirrors : List Mirror) (cx cy : ℚ) : Option Mirror :=
  (findLoop (mirrorDistSq (canvasToData cfg cx cy)) ((15 / cfg.zoom) ^ 2)
    mirrors none none).1

/-- `filteredMirrors = mirrorData.filter(m => selectedZones.includes(m.z))`. -/
def filteredMirrors (selectedZones : List String) (mirrorData : List Mirror) : List Mirror :=
  mirrorData.filter (fun m => decide (m.z ∈ selectedZones))

/-- C4 counterexample: with an 800×600 canvas, `zoom = 1`, `offset = (0,0)`
and the cursor at the canvas center `(400, 300)`, the mirror at world
`(298/9, 0)` sits at screen `(410, 300)` — exactly `k = 10` pixels from the
cursor, with `10 < 15 = basePixelThreshold` — yet `findNearestMirror` does
not return it: the hit radius is `15 * scaleFactor ≈ 4.53` screen pixels,
not 15. -/
theorem findNearestMirror_15px_refuted :
    dataToCanvas { width := 800, height := 600, zoom := 1, offsetX := 0, offsetY := 0 }
        (298/9) 0 = (410, 300) ∧
    (10 : ℚ) < 15 ∧
    findNearestMirror { width := 800, height := 600, zoom := 1, offsetX := 0, offsetY := 0 }
        [{ id := "M0", x := 298/9, y := 0, z := "A", c := 100 }] 400 300 = none := by
  refine ⟨?_, by norm_num, ?_⟩
  · show (_, _) = (_, _)
    norm_num [dataToCanvas, scaleFactor, BOUNDS]
  · have hlt : ¬ (mirrorDistSq
        (canvasToData { width := 800, height := 600, zoom := 1, offsetX := 0, offsetY := 0 } 400 300)
        { id := "M0", x := 298/9, y := 0, z := "A", c := 100 } < (15 / (1:ℚ)) ^ 2) := by
      norm_num [mirrorDistSq, canvasToData, scaleFactor, BOUNDS]
    simp only [findNearestMirror, findLoop, hlt, if_false]

/-- C4 amended: for a viewport with a positive canvas and
`zoom ∈ [0.2, 10]`, a mirror whose screen position is exactly `k ≥ 0`
pixels from the cursor is returned by `findNearestMirror` iff
`k < 15 * scaleFactor` — the hit radius in screen pixels is the constant
`15 * scaleFactor(canvasSize)` (≈ 4.53 px on an 800×600 canvas), which is
independent of the zoom value but is not the 15 px the spec claims. -/
theorem findNearestMirror_screen_radius (cfg : Cfg) (m : Mirror) (cx cy k : ℚ)
    (hw : 0 < cfg.width) (hh : 0 < cfg.height)
    (hz₁ : 1/5 ≤ cfg.zoom) (hz₂ : cfg.zoom ≤ 10) (hk : 0 ≤ k)
    (hdist : ((dataToCanvas cfg m.x m.y).1 - cx) ^ 2 +
             ((dataToCanvas cfg m.x m.y).2 - cy) ^ 2 = k ^ 2) :
    findNearestMirror cfg [m] cx cy = some m ↔ k < 15 * scaleFactor cfg := by
  have hs : 0 < scaleFactor cfg := scaleFactor_pos cfg hw hh
  have hz : 0 < cfg.zoom := by linarith
  have hsz : scaleFactor cfg * cfg.zoom ≠ 0 := by positivity
  -- the squared world distance is the squared screen distance divided by (scale*zoom)^2
  have hworld : mirrorDistSq (canvasToData cfg cx cy) m =
      k ^ 2 / (scaleFactor cfg * cfg.zoom) ^ 2 := by
    rw [← hdist]
    simp only [mirrorDistSq, canvasToData, dataToCanvas]
    field_simp
    ring
  have hstep : findNearestMirror cfg [m] cx cy = some m ↔
      mirrorDistSq (canvasToData cfg cx cy) m < (15 / cfg.zoom) ^ 2 := by
    by_cases hcond : mirrorDistSq (canvasToData cfg cx cy) m < (15 / cfg.zoom) ^ 2
    · simp only [findNearestMirror, findLoop, hcond, if_true, iff_true]
    · simp only [findNearestMirror, findLoop, hcond, if_false, iff_false]
      simp
  rw [hstep, hworld]
  rw [div_lt_iff₀ (by positivity), div_pow, div_mul_eq_mul_div, lt_div_iff₀ (by positivity)]
  have hz2 : (0:ℚ) < cfg.zoom ^ 2 := by positivity
  have key : k ^ 2 * cfg.zoom ^ 2 < 15 ^ 2 * (scaleFactor cfg * cfg.zoom) ^ 2 ↔
      k ^ 2 < (15 * scaleFactor cfg) ^ 2 := by
    rw [show (15:ℚ) ^ 2 * (scaleFactor cfg * cfg.zoom) ^ 2 =
        (15 * scaleFactor cfg) ^ 2 * cfg.zoom ^ 2 by ring]
    exact mul_lt_mul_right hz2
  rw [key]
  constructor
  · exact fun h => lt_of_pow_lt_pow_left₀ 2 (by positivity) h
  · exact fun h => pow_lt_pow_left₀ h hk (by norm_num)

/-- C4 amended, witness: on an 800×600 canvas at `zoom = 1`, the mirror at
world `(149/45, 0)` is exactly 1 screen pixel from the cursor `(400, 300)`;
`1 < 15 * scaleFactor = 675/149`, so it is returned. -/
theorem findNearestMirror_screen_radius_witness :
    findNearestMirror { width := 800, height := 600, zoom := 1, offsetX := 0, offsetY := 0 }
        [{ id := "M1", x := 149/45, y := 0, z := "A", c := 100 }] 400 300 =
      some { id := "M1", x := 149/45, y := 0, z := "A", c := 100 } :=
  (findNearestMirror_screen_radius
      { width := 800, height := 600, zoom := 1, offsetX := 0, offsetY := 0 }
      { id := "M1", x := 149/45, y := 0, z := "A", c := 100 } 400 300 1
      (by norm_num) (by norm_num) (by norm_num) (by norm_num) (by norm_num)
      (by norm_num [dataToCanvas, scaleFactor, BOUNDS])).mpr
    (by norm_num [scaleFactor, BOUNDS])

/-- If no element of `xs` is both strictly closer than the current minimum
`md` and within the threshold, the scan leaves the accumulator unchanged. -/
lemma findLoop_skip (dSq : Mirror → ℚ) (thSq : ℚ) (xs : List Mirror)
    (n : Option Mirror) (md : ℚ)
    (h : ∀ x ∈ xs, ¬(dSq x < md ∧ dSq x < thSq)) :
    findLoop dSq thSq xs n (some md) = (n, some md) := by
  induction xs with
  | nil => rfl
  | cons x rest ih =>
      have hx := h x (List.mem_cons_self x rest)
      simp only [findLoop]
      rw [if_neg hx]
      exact ih (fun y hy => h y (List.mem_cons_of_mem x hy))

/-- The scan over a concatenation proceeds sequentially. -/
lemma findLoop_append (dSq : Mirror → ℚ) (thSq : ℚ) (as bs : List Mirror)
    (n : Option Mirror) (o : Option ℚ) :
    findLoop dSq thSq (as ++ bs) n o =
      findLoop dSq thSq bs (findLoop dSq thSq as n o).1 (findLoop dSq thSq as n o).2 := by
  induction as generalizing n o with
  | nil => rfl
  | cons a rest ih =>
      cases o with
      | none =>
          simp only [List.cons_append, findLoop]
          by_cases h : dSq a < thSq
          · rw [if_pos h, if_pos h]; exact ih _ _
          · rw [if_neg h, if_neg h]; exact ih _ _
      | some md =>
          simp only [List.cons_append, findLoop]
          by_cases h : dSq a < md ∧ dSq a < thSq
          · rw [if_pos h, if_pos h]; exact ih _ _
          · rw [if_neg h, if_neg h]; exact ih _ _

/-- If every within-threshold element of `xs` is strictly farther than `d₁`,
then the running minimum stays strictly above `d₁` along the scan. -/
lemma findLoop_min_gt (dSq : Mirror → ℚ) (thSq d₁ : ℚ) (xs : List Mirror)
    (n : Option Mirror) (o : Option ℚ)
    (hxs : ∀ x ∈ xs, dSq x < thSq → d₁ < dSq x)
    (ho : ∀ v, o = some v → d₁ < v) :
    ∀ v, (findLoop dSq thSq xs n o).2 = some v → d₁ < v := by
  induction xs generalizing n o with
  | nil => exact ho
  | cons x rest ih =>
      have hx : dSq x < thSq → d₁ < dSq x := hxs x (List.mem_cons_self x rest)
      have hrest : ∀ y ∈ rest, dSq y < thSq → d₁ < dSq y :=
        fun y hy => hxs y (List.mem_cons_of_mem x hy)
      cases o with
      | none =>
          simp only [findLoop]
          by_cases h : dSq x < thSq
          · rw [if_pos h]
            refine ih _ _ hrest ?_
            intro v hv
            injection hv with hv'
            rw [← hv']; exact hx h
          · rw [if_neg h]
            exact ih _ _ hrest (by intro v hv; cases hv)
      | some md =>
          simp only [findLoop]
          by_cases h : dSq x < md ∧ dSq x < thSq
          · rw [if_pos h]
            refine ih _ _ hrest ?_
            intro v hv
            injection hv with hv'
            rw [← hv']; exact hx h.2
          · rw [if_neg h]
            exact ih _ _ hrest ho

/-- C5: tie-break is first-encountered. If the input sequence is
`ys ++ m₁ :: zs` where `m₂ ∈ zs` is equidistant to `m₁`, `m₁` is within
the hit threshold and at minimal distance among within-threshold points,
and nothing before `m₁` ties or beats it, then `findNearestMirror` returns
`m₁`, the first of the equidistant points in input order. (Determinism is
immediate: the scan is a pure function of points, viewport and cursor.) -/
theorem findNearestMirror_tie_first (cfg : Cfg) (cx cy : ℚ)
    (ys zs : List Mirror) (m₁ m₂ : Mirror)
    (hm₂ : m₂ ∈ zs)
    (heq : mirrorDistSq (canvasToData cfg cx cy) m₁ =
           mirrorDistSq (canvasToData cfg cx cy) m₂)
    (hth : mirrorDistSq (canvasToData cfg cx cy) m₁ < (15 / cfg.zoom) ^ 2)
    (hmin : ∀ x ∈ ys ++ m₁ :: zs,
        mirrorDistSq (canvasToData cfg cx cy) x < (15 / cfg.zoom) ^ 2 →
        mirrorDistSq (canvasToData cfg cx cy) m₁ ≤ mirrorDistSq (canvasToData cfg cx cy) x)
    (hfirst : ∀ y ∈ ys,
        mirrorDistSq (canvasToData cfg cx cy) y < (15 / cfg.zoom) ^ 2 →
        mirrorDistSq (canvasToData cfg cx cy) m₁ < mirrorDistSq (canvasToData cfg cx cy) y) :
    findNearestMirror cfg (ys ++ m₁ :: zs) cx cy = some m₁ := by
  classical
  set dSq := mirrorDistSq (canvasToData cfg cx cy) with hdSq
  set thSq := (15 / cfg.zoom) ^ 2 with hthSq
  have hzs : ∀ z ∈ zs, ¬(dSq z < dSq m₁ ∧ dSq z < thSq) := by
    intro z hz ⟨h₁, h₂⟩
    have := hmin z (by simp [hz]) h₂
    exact absurd h₁ (not_lt.mpr this)
  unfold findNearestMirror
  rw [findLoop_append]
  have h2 : ∀ v, (findLoop dSq thSq ys none none).2 = some v → dSq m₁ < v :=
    findLoop_min_gt dSq thSq (dSq m₁) ys none none hfirst (by intro v hv; cases hv)
  rcases hacc : (findLoop dSq thSq ys none none).2 with _ | v
  · simp only [findLoop]
    rw [if_pos hth, findLoop_skip dSq thSq zs _ _ hzs]
  · simp only [findLoop]
    rw [if_pos ⟨h2 v hacc, hth⟩, findLoop_skip dSq thSq zs _ _ hzs]

/-- C5 witness: with the cursor at the canvas center (world origin), the
mirrors at world `(1,0)` and `(-1,0)` are equidistant and both within the
threshold; `findNearestMirror` returns the first of the two in input
order. -/
theorem findNearestMirror_tie_first_witness :
    findNearestMirror { width := 800, height := 600, zoom := 1, offsetX := 0, offsetY := 0 }
        [{ id := "T1", x := 1, y := 0, z := "A", c := 90 },
         { id := "T2", x := -1, y := 0, z := "A", c := 80 }] 400 300 =
      some { id := "T1", x := 1, y := 0, z := "A", c := 90 } :=
  findNearestMirror_tie_first
    { width := 800, height := 600, zoom := 1, offsetX := 0, offsetY := 0 } 400 300
    [] [{ id := "T2", x := -1, y := 0, z := "A", c := 80 }]
    { id := "T1", x := 1, y := 0, z := "A", c := 90 }
    { id := "T2", x := -1, y := 0, z := "A", c := 80 }
    (by decide)
    (by norm_num [mirrorDistSq, canvasToData, scaleFactor, BOUNDS])
    (by norm_num [mirrorDistSq, canvasToData, scaleFactor, BOUNDS])
    (by intro x hx
        fin_cases hx <;> intro hthx <;>
          norm_num [mirrorDistSq, canvasToData, scaleFactor, BOUNDS])
    (by intro y hy; cases hy)

/-- Any mirror produced by the scan comes from the scanned list (or was
already the accumulator). -/
lemma findLoop_mem (dSq : Mirror → ℚ) (thSq : ℚ) :
    ∀ (xs : List Mirror) (n : Option Mirror) (o : Option ℚ) (m : Mirror),
      (findLoop dSq thSq xs n o).1 = some m → m ∈ xs ∨ n = some m := by
  intro xs
  induction xs with
  | nil => intro n o m h; exact Or.inr h
  | cons x rest ih =>
      intro n o m h
      cases o with
      | none =>
          simp only [findLoop] at h
          by_cases hc : dSq x < thSq
          · rw [if_pos hc] at h
            rcases ih _ _ _ h with hm | hm
            · exact Or.inl (List.mem_cons_of_mem x hm)
            · injection hm with hm'; exact Or.inl (hm' ▸ List.mem_cons_self x rest)
          · rw [if_neg hc] at h
            rcases ih _ _ _ h with hm | hm
            · exact Or.inl (List.mem_cons_of_mem x hm)
            · exact Or.inr hm
      | some md =>
          simp only [findLoop] at h
          by_cases hc : dSq x < md ∧ dSq x < thSq
          · rw [if_pos hc] at h
            rcases ih _ _ _ h with hm | hm
            · exact Or.inl (List.mem_cons_of_mem x hm)
            · injection hm with hm'; exact Or.inl (hm' ▸ List.mem_cons_self x rest)
          · rw [if_neg hc] at h
            rcases ih _ _ _ h with hm | hm
            · exact Or.inl (List.mem_cons_of_mem x hm)
            · exact Or.inr hm

/-- C10: hover and click hit-testing run `findNearestMirror` over
`filteredMirrors`, so any mirror it returns has its zone among the
currently selected zones — a mirror hidden by the zone filter is never
returned, however close to the cursor it is. -/
theorem findNearestMirror_zone_selected (cfg : Cfg) (zones : List String)
    (mirrorData : List Mirror) (cx cy : ℚ) (m : Mirror)
    (h : findNearestMirror cfg (filteredMirrors zones mirrorData) cx cy = some m) :
    m.z ∈ zones := by
  unfold findNearestMirror at h
  rcases findLoop_mem _ _ _ _ _ _ h with hmem | hn
  · have hmz : m ∈ mirrorData ∧ m.z ∈ zones := by
      simpa [filteredMirrors, List.mem_filter] using hmem
    exact hmz.2
  · cases hn

/-- C10 witness: the mirror at the world origin in zone `"A"` is under the
cursor and is returned when zone `"A"` is selected; its zone is among the
selected zones. -/
theorem findNearestMirror_zone_selected_witness :
    findNearestMirror { width := 800, height := 600, zoom := 1, offsetX := 0, offsetY := 0 }
        (filteredMirrors ["A"] [{ id := "Z1", x := 0, y := 0, z := "A", c := 90 }]) 400 300 =
      some { id := "Z1", x := 0, y := 0, z := "A", c := 90 } ∧
    ({ id := "Z1", x := 0, y := 0, z := "A", c := 90 } : Mirror).z ∈ ["A"] := by
  have h : findNearestMirror { width := 800, height := 600, zoom := 1, offsetX := 0, offsetY := 0 }
      (filteredMirrors ["A"] [{ id := "Z1", x := 0, y := 0, z := "A", c := 90 }]) 400 300 =
      some { id := "Z1", x := 0, y := 0, z := "A", c := 90 } := by
    norm_num [filteredMirrors, List.filter, findNearestMirror, findLoop,
      mirrorDistSq, canvasToData, scaleFactor, BOUNDS]
  exact ⟨h, findNearestMirror_zone_selected _ _ _ _ _ _ h⟩

/-- The `MirrorFieldPage` state touched by the pointer handlers: the
viewport (`zoom`, `offset`, `canvasSize`), the drag state (`isDragging`,
`dragStart`), the selection state (`hoveredMirror`, `selectedMirror`) and
the data feeding the hit-test (`mirrorData`, `selectedZones`). -/
structure AppState where
  width : ℚ
  height : ℚ
  zoom : ℚ
  offsetX : ℚ
  offsetY : ℚ
  isDragging : Bool
  dragStartX : ℚ
  dragStartY : ℚ
  hoveredMirror : Option Mirror
  selectedMirror : Option Mirror
  mirrorData : List Mirror
  selectedZones : List String
  deriving DecidableEq, Repr

/-- The viewport slice of the state, as read by the coordinate transforms. -/
def AppState.cfg (s : AppState) : Cfg :=
  { width := s.width, height := s.height, zoom := s.zoom,
    offsetX := s.offsetX, offsetY := s.offsetY }

/-- `handleMouseDown`:
`if (e.button === 0) { setIsDragging(true);
   setDragStart({ x: e.clientX - offset.x, y: e.clientY - offset.y }); }`. -/
def handleMouseDown (s : AppState) (button : ℕ) (clientX clientY : ℚ) : AppState :=
  if button = 0 then
    { s with isDragging := true,
             dragStartX := clientX - s.offsetX,
             dragStartY := clientY - s.offsetY }
  else s

/-- `handleMouseMove`: while dragging,
`setOffset({ x: e.clientX - dragStart.x, y: e.clientY - dragStart.y })`;
otherwise a hover hit-test on `(e.clientX - rect.left, e.clientY - rect.top)`. -/
def handleMouseMove (s : AppState) (clientX clientY rectLeft rectTop : ℚ) : AppState :=
  if s.isDragging then
    { s with offsetX := clientX - s.dragStartX, offsetY := clientY - s.dragStartY }
  else
    { s with hoveredMirror :=
        (findNearestMirror s.cfg (filteredMirrors s.selectedZones s.mirrorData)
          (clientX - rectLeft) (clientY - rectTop)) }

/-- `handleMouseUp`: `setIsDragging(false)`. -/
def handleMouseUp (s : AppState) : AppState := { s with isDragging := false }

/-- `handleClick`: `if (isDragging) return;` then a hit-test on the click
position and `setSelectedMirror(mirror)`. -/
def handleClick (s : AppState) (clientX clientY rectLeft rectTop : ℚ) : AppState :=
  if s.isDragging then s
  else
    { s with selectedMirror :=
        (findNearestMirror s.cfg (filteredMirrors s.selectedZones s.mirrorData)
          (clientX - rectLeft) (clientY - rectTop)) }

/-- C6: in the dragging state, a pointer move to `a` followed by a pointer
move to `b` changes the offset by exactly `(b.x - a.x, b.y - a.y)`, and the
moves write no other viewport field: zoom, drag anchor, selection and hover
are untouched. -/
theorem drag_move_translates (s : AppState) (ax ay bx b2y rl rt : ℚ)
    (hd : s.isDragging = true) :
    (handleMouseMove (handleMouseMove s ax ay rl rt) bx b2y rl rt).offsetX -
        (handleMouseMove s ax ay rl rt).offsetX = bx - ax ∧
    (handleMouseMove (handleMouseMove s ax ay rl rt) bx b2y rl rt).offsetY -
        (handleMouseMove s ax ay rl rt).offsetY = b2y - ay ∧
    (handleMouseMove (handleMouseMove s ax ay rl rt) bx b2y rl rt).zoom = s.zoom ∧
    (handleMouseMove (handleMouseMove s ax ay rl rt) bx b2y rl rt).dragStartX = s.dragStartX ∧
    (handleMouseMove (handleMouseMove s ax ay rl rt) bx b2y rl rt).dragStartY = s.dragStartY ∧
    (handleMouseMove (handleMouseMove s ax ay rl rt) bx b2y rl rt).selectedMirror = s.selectedMirror ∧
    (handleMouseMove (handleMouseMove s ax ay rl rt) bx b2y rl rt).hoveredMirror = s.hoveredMirror := by
  refine ⟨?_, ?_, ?_, ?_, ?_, ?_, ?_⟩ <;> simp [handleMouseMove, hd]

/-- C6 witness: dragging from screen `(200, 200)` to `(250, 230)` at
`zoom = 1` changes the offset by exactly `(50, 30)` and keeps `zoom = 1`. -/
theorem drag_move_translates_witness :
    (⟨800, 600, 1, 0, 0, true, 0, 0, none, none, [], []⟩ : AppState).isDragging = true ∧
    (handleMouseMove (handleMouseMove ⟨800, 600, 1, 0, 0, true, 0, 0, none, none, [], []⟩
          200 200 0 0) 250 230 0 0).offsetX -
      (handleMouseMove ⟨800, 600, 1, 0, 0, true, 0, 0, none, none, [], []⟩ 200 200 0 0).offsetX
      = 50 ∧
    (handleMouseMove (handleMouseMove ⟨800, 600, 1, 0, 0, true, 0, 0, none, none, [], []⟩
          200 200 0 0) 250 230 0 0).offsetY -
      (handleMouseMove ⟨800, 600, 1, 0, 0, true, 0, 0, none, none, [], []⟩ 200 200 0 0).offsetY
      = 30 ∧
    (handleMouseMove (handleMouseMove ⟨800, 600, 1, 0, 0, true, 0, 0, none, none, [], []⟩
          200 200 0 0) 250 230 0 0).zoom = 1 := by
  have h := drag_move_translates ⟨800, 600, 1, 0, 0, true, 0, 0, none, none, [], []⟩
    200 200 250 230 0 0 rfl
  refine ⟨rfl, ?_, ?_, ?_⟩
  · rw [h.1]; norm_num
  · rw [h.2.1]; norm_num
  · rw [h.2.2.1]

/-- The initial state used to exhibit the click-after-drag behaviour: an
800×600 canvas at `zoom = 1`, `offset = (0,0)`, nothing selected, and one
zone-A mirror placed (in world meters) exactly where a click at client
`(250, 230)` lands after the drag below has moved the offset to `(50, 30)`. -/
def dragClickState : AppState :=
  { width := 800, height := 600, zoom := 1, offsetX := 0, offsetY := 0,
    isDragging := false, dragStartX := 0, dragStartY := 0,
    hoveredMirror := none, selectedMirror := none,
    mirrorData := [{ id := "C7", x := -5960/9, y := 2980/9, z := "A", c := 90 }],
    selectedZones := ["A"] }

/-- C7, failing run: mouse down at `(200,200)`, drag to `(250,230)` (the
offset moves, so a drag occurred since the `pointerDown`), mouse up, then
the click event. Because the browser fires `mouseup` before `click`,
`handleMouseUp` has already reset `isDragging`, so the `if (isDragging)
return;` guard in `handleClick` does not fire: the click performs the
hit-test and updates the selection even though a drag occurred —
contradicting the claim that the selection is left unchanged. -/
theorem click_after_drag_updates_selection :
    (handleMouseMove (handleMouseDown dragClickState 0 200 200) 250 230 0 0).offsetX ≠
        dragClickState.offsetX ∧
    (handleMouseUp (handleMouseMove (handleMouseDown dragClickState 0 200 200)
        250 230 0 0)).isDragging = false ∧
    (handleClick (handleMouseUp (handleMouseMove (handleMouseDown dragClickState 0 200 200)
        250 230 0 0)) 250 230 0 0).selectedMirror =
      some { id := "C7", x := -5960/9, y := 2980/9, z := "A", c := 90 } := by
  refine ⟨by norm_num [dragClickState, handleMouseDown, handleMouseMove], rfl, ?_⟩
  norm_num [dragClickState, handleMouseDown, handleMouseMove, handleMouseUp, handleClick,
    AppState.cfg, filteredMirrors, List.filter, findNearestMirror, findLoop,
    mirrorDistSq, canvasToData, scaleFactor, BOUNDS]

/-- A raw point record as it arrives in the fetched JSON
(`response.mirrors`): any of the coordinate or zone fields may be absent,
modelled with `Option`. -/
structure RawMirror where
  id : String
  x : Option ℚ
  y : Option ℚ
  z : Option String
  c : Option ℚ
  deriving DecidableEq, Repr

/-- A raw record is malformed when it misses a coordinate or the zone. -/
def RawMirror.malformed (r : RawMirror) : Bool :=
  r.x.isNone || r.y.isNone || r.z.isNone

/-- The shape of the `getMirrorFieldData()` resolution consumed by
`loadMirrorData`: `{ success, mirrors, error }`. -/
structure FetchResponse where
  success : Bool
  mirrors : Option (List RawMirror)
  error : Option String
  deriving DecidableEq, Repr

/-- The slice of `MirrorFieldPage` state written by `loadMirrorData`:
`mirrorData`, `mirrorDataLoading`, `mirrorDataError`. -/
structure LoadState where
  mirrorData : List RawMirror
  mirrorDataLoading : Bool
  mirrorDataError : Option String
  deriving DecidableEq, Repr

/-- `loadMirrorData` applied to a settled response:
`setMirrorDataLoading(true); setMirrorDataError(null);`
then `if (response.success && response.mirrors) setMirrorData(response.mirrors);
else throw new Error(response.error || 'Failed to load mirror data');`
with the `catch` setting `mirrorDataError` and the `finally` clearing
`mirrorDataLoading`. The fetched list is stored verbatim — no record is
inspected, filtered, or counted. -/
def loadMirrorData (resp : FetchResponse) (s : LoadState) : LoadState :=
  match resp.success, resp.mirrors with
  | true, some ms =>
      { s with mirrorData := ms, mirrorDataLoading := false, mirrorDataError := none }
  | _, _ =>
      { s with mirrorDataLoading := false,
               mirrorDataError := some (resp.error.getD "Failed to load mirror data") }

/-- C8 counterexample: a successful response carrying one well-formed
record and one malformed record (its `y` coordinate is missing) is stored
as-is by `loadMirrorData`: the malformed record is in the stored
`mirrorData`, not filtered out, and no skipped count exists anywhere in
the load path. -/
theorem loadMirrorData_keeps_malformed :
    (⟨"B1", some 1, none, some "A", some 50⟩ : RawMirror).malformed = true ∧
    (⟨"B1", some 1, none, some "A", some 50⟩ : RawMirror) ∈
      (loadMirrorData
        ⟨true, some [⟨"G1", some 0, some 0, some "A", some 90⟩,
                     ⟨"B1", some 1, none, some "A", some 50⟩], none⟩
        ⟨[], true, none⟩).mirrorData := by
  refine ⟨rfl, ?_⟩
  simp [loadMirrorData]

/-- C8 amended: on a successful response, `loadMirrorData` stores the
fetched `mirrors` list verbatim — well-formed and malformed records alike
are kept, nothing is filtered and no skipped-record count is produced. -/
theorem loadMirrorData_stores_verbatim (resp : FetchResponse) (s : LoadState)
    (ms : List RawMirror) (hsucc : resp.success = true) (hms : resp.mirrors = some ms) :
    (loadMirrorData resp s).mirrorData = ms := by
  unfold loadMirrorData
  rw [hsucc, hms]

/-- C8 amended, witness: the concrete two-record response above is stored
verbatim. -/
theorem loadMirrorData_stores_verbatim_witness :
    (loadMirrorData
        ⟨true, some [⟨"G1", some 0, some 0, some "A", some 90⟩,
                     ⟨"B1", some 1, none, some "A", some 50⟩], none⟩
        ⟨[], true, none⟩).mirrorData =
      [⟨"G1", some 0, some 0, some "A", some 90⟩,
       ⟨"B1", some 1, none, some "A", some 50⟩] :=
  loadMirrorData_stores_verbatim _ _ _ rfl rfl

/-- The component as seen by the pending fetch: whether `MirrorFieldPage`
is still mounted, and its load-state slice. The data-loading `useEffect`
returns no cleanup function and sets no cancellation flag. -/
structure ComponentState where
  mounted : Bool
  load : LoadState
  deriving DecidableEq, Repr

/-- What runs when the in-flight `getMirrorFieldData()` promise settles:
the `await` continuation of `loadMirrorData`, which invokes the state
setters unconditionally — the code contains no unmount guard, so the
continuation is applied whether or not the component is still mounted. -/
def resolveFetch (resp : FetchResponse) (cs : ComponentState) : ComponentState :=
  { cs with load := loadMirrorData resp cs.load }

/-- C9, failing run: the component has unmounted (`mounted = false`) while
the initial fetch was in flight (`mirrorDataLoading = true`); the fetch
then resolves successfully. The code's continuation still performs its
state updates — `mirrorData` and `mirrorDataLoading` change after
teardown — because `loadMirrorData`'s effect installs no cleanup and
checks no cancellation flag, contradicting the claim that late
resolutions are ignored. -/
theorem resolveFetch_after_unmount_updates_state :
    (⟨false, ⟨[], true, none⟩⟩ : ComponentState).mounted = false ∧
    (resolveFetch ⟨true, some [⟨"G1", some 0, some 0, some "A", some 90⟩], none⟩
        ⟨false, ⟨[], true, none⟩⟩).load.mirrorDataLoading = false ∧
    (resolveFetch ⟨true, some [⟨"G1", some 0, some 0, some "A", some 90⟩], none⟩
        ⟨false, ⟨[], true, none⟩⟩).load.mirrorData ≠ [] := by
  refine ⟨rfl, rfl, ?_⟩
  simp [resolveFetch, loadMirrorData]

end MirrorField
